import Mathlib

/-!
# c14-cli: command dispatch and the `create` workflow

A shallow embedding of `pkg/commands/root.go` and `pkg/commands/create.go`.

* Go `error` values are a free datatype (`GoError`): `errors.New` / `fmt.Errorf`
  build a leaf carrying the message, `errors.Annotate` wraps a cause with a
  call-site annotation.  A `nil` error is `none`.
* A Go call either returns, terminates the process (`os.Exit`) or panics
  (`Outcome`).
* The collaborators that are not part of these two files (the flag library, the
  API client, the name generator, the `Command` implementations held by the
  registry) are parameters.  Every call the embedded code makes to them is
  recorded, in order, in an explicit log, and what the embedded code prints is
  collected in `stdout`.
-/

namespace C14

/-- Go `error` values: a message leaf (`errors.New`, `fmt.Errorf`) or a cause
wrapped by `errors.Annotate` with an annotation. -/
inductive GoError where
  | New (msg : String)
  | Annotate (cause : GoError) (msg : String)
  deriving DecidableEq

/-- The innermost error of a chain of annotations (`errors.Cause`). -/
def GoError.Cause : GoError → GoError
  | .New m => .New m
  | .Annotate c _ => c.Cause

/-- How a Go call ends: it returns a value, the process is terminated by
`os.Exit`, or the goroutine panics. -/
inductive Outcome (α : Type) where
  | returned (a : α)
  | exited (code : Int)
  | panicked (msg : String)
  deriving DecidableEq

/-! ## `create.go` -/

/-- The fields of `createFlags` (create.go, lines 17-25). -/
structure createFlags where
  flName : String
  flDesc : String
  flSafe : String
  flQuiet : Bool
  flParity : String
  flLarge : Bool
  flCrypto : Bool
  deriving DecidableEq

/-- The flag values `Create()` registers as defaults (create.go, lines 40-46). -/
def Create : createFlags :=
  { flName := ""
    flDesc := ""
    flQuiet := false
    flSafe := ""
    flParity := "standard"
    flLarge := false
    flCrypto := true }

/-- The one field of `api.OnlineGetSSHKey` the command reads. -/
structure OnlineGetSSHKey where
  UUIDRef : String
  deriving DecidableEq

/-- The request `api.ConfigCreateSSHBucketFromScratch`, with the fields that
create.go fills in (lines 101-112). -/
structure ConfigCreateSSHBucketFromScratch where
  SafeName : String
  ArchiveName : String
  Desc : String
  UUIDSSHKeys : List String
  Platforms : List String
  Days : Int
  Quiet : Bool
  Parity : String
  LargeBucket : Bool
  Crypto : String
  deriving DecidableEq

/-- The four results of `OnlineAPI.CreateSSHBucketFromScratch`; `Run` discards
the first and the third. -/
structure CreateSSHBucketFromScratchResult where
  first : String
  uuidArchive : String
  third : String
  err : Option GoError
  deriving DecidableEq

/-- What the collaborators of the `create` command answer during one
invocation.  Each of them is called at most once per invocation. -/
structure Collaborators where
  GetRandomName : Int → String
  InitAPI : Option GoError
  GetSSHKeys : List OnlineGetSSHKey × Option GoError
  CreateSSHBucketFromScratch :
    ConfigCreateSSHBucketFromScratch → CreateSSHBucketFromScratchResult

/-- One call from the `create` command to a collaborator. -/
inductive Call where
  | PrintUsage
  | GetRandomName (retry : Int)
  | InitAPI
  | GetSSHKeys
  | CreateSSHBucketFromScratch (cfg : ConfigCreateSSHBucketFromScratch)
  deriving DecidableEq

/-- The observable effects of the command so far: the collaborator calls in the
order they were made, and the text the command itself wrote to standard
output. -/
structure Process where
  calls : List Call
  stdout : String
  deriving DecidableEq

/-- A process that has done nothing yet. -/
def Process.start : Process :=
  { calls := [], stdout := "" }

/-- Appends a collaborator call to the log. -/
def Process.call (p : Process) (c : Call) : Process :=
  { p with calls := p.calls ++ [c] }

/-- Appends text to standard output (`fmt.Printf`). -/
def Process.print (p : Process) (s : String) : Process :=
  { p with stdout := p.stdout ++ s }

/-- The number of creation requests in a call log. -/
def creationCalls : List Call → Nat
  | [] => 0
  | .CreateSSHBucketFromScratch _ :: cs => creationCalls cs + 1
  | _ :: cs => creationCalls cs

/-- The method `create.GetName` (create.go, lines 50-52). -/
def create.GetName : String := "create"

/-- The method `create.CheckFlags` (create.go, lines 54-67): with positional arguments it
prints the usage and exits with status 1; otherwise it resolves the name and
the description and returns `nil`. -/
def create.CheckFlags (env : Collaborators) (c : createFlags) (args : List String)
    (p : Process) : Outcome (Option GoError) × createFlags × Process :=
  if args.length ≠ 0 then
    (.exited 1, c, p.call .PrintUsage)
  else
    let (c, p) :=
      if c.flName = "" then
        ({ c with flName := env.GetRandomName 0 }, p.call (.GetRandomName 0))
      else (c, p)
    let c := if c.flDesc = "" then { c with flDesc := " " } else c
    (.returned none, c, p)

/-- The method `create.Run` (create.go, lines 69-118).  The positional arguments
are not read.  `InitAPI` and the two API calls are answered by `env`. -/
def create.Run (env : Collaborators) (c : createFlags) (_args : List String)
    (p : Process) : Option GoError × Process :=
  let p := p.call .InitAPI
  match env.InitAPI with
  | some err => (some err, p)
  | none =>
    let p := p.call .GetSSHKeys
    match env.GetSSHKeys with
    | (_, some err) => (some (.Annotate err "Run:GetSSHKey"), p)
    | (keys, none) =>
      match keys with
      | [] =>
        (some (.New
          "Please add an SSH Key here: https://console.online.net/en/account/ssh-keys"), p)
      | key0 :: _ =>
        let safeName := c.flSafe
        let safeName := if safeName = "" then c.flName ++ "_safe" else safeName
        let crypto := if c.flCrypto = false then "none" else "aes-256-cbc"
        let cfg : ConfigCreateSSHBucketFromScratch :=
          { SafeName := safeName
            ArchiveName := c.flName
            Desc := c.flDesc
            UUIDSSHKeys := [key0.UUIDRef]
            Platforms := ["1"]
            Days := 7
            Quiet := c.flQuiet
            Parity := c.flParity
            LargeBucket := c.flLarge
            Crypto := crypto }
        let p := p.call (.CreateSSHBucketFromScratch cfg)
        let r := env.CreateSSHBucketFromScratch cfg
        match r.err with
        | some err => (some (.Annotate err "Run:CreateSSHBucketFromScratch"), p)
        | none => (none, p.print (r.uuidArchive ++ "\n"))

/-! ## `root.go` -/

/-- A registered command as the dispatcher sees it: its name, and what its
`Parse` and `Run` methods do to the world `σ` they act on. -/
structure Command (σ : Type) where
  GetName : String
  Parse : List String → σ → Outcome (List String × Option GoError) × σ
  Run : List String → σ → Outcome (Option GoError) × σ

/-- A method call from the dispatcher to the registry entry at index `idx`. -/
inductive Invocation where
  | Parse (idx : Nat) (args : List String)
  | Run (idx : Nat) (args : List String)
  deriving DecidableEq

/-- The state of the dispatcher: the world the commands act on, the method
calls made so far, and `Env.Debug`. -/
structure RootState (σ : Type) where
  world : σ
  invoked : List Invocation
  Debug : Bool

/-- What the global flag set answers: the error of `mflag.CommandLine.Parse`,
the value of the debug flag, and `mflag.Args()`. -/
structure GlobalFlags where
  err : Option GoError
  flDebug : Bool
  Args : List String

/-- The error built at root.go lines 62-63. -/
def unknownCommand (name : String) : GoError :=
  .New ("c14: unknow command " ++ name ++ "\nRun \x27c14 help\x27 for usage")

/-- The method `root.printUsage` (root.go, lines 67-75): runs the first command named
"help" and exits with status 1; panics when there is none. -/
def root.printUsage {σ : Type} (args : List String) :
    List (Command σ) → Nat → RootState σ → Outcome (Option GoError) × RootState σ
  | [], _, s => (.panicked "No help method", s)
  | cmd :: cmds, i, s =>
    if cmd.GetName = "help" then
      let s := { s with invoked := s.invoked ++ [Invocation.Run i args] }
      match cmd.Run args s.world with
      | (.returned _, w) => (.exited 1, { s with world := w })
      | (.exited code, w) => (.exited code, { s with world := w })
      | (.panicked msg, w) => (.panicked msg, { s with world := w })
    else root.printUsage args cmds (i + 1) s

/-- The loop of `root.Parse` (root.go, lines 53-64) over the registry entries
from index `i` on, for the argument list `name :: rest`. -/
def root.Parse.loop {σ : Type} (name : String) (rest : List String) :
    List (Command σ) → Nat → RootState σ → Outcome (Option GoError) × RootState σ
  | [], _, s => (.returned (some (unknownCommand name)), s)
  | cmd :: cmds, i, s =>
    if cmd.GetName = name then
      let s := { s with invoked := s.invoked ++ [Invocation.Parse i rest] }
      match cmd.Parse rest s.world with
      | (.returned (_, some err), w) => (.returned (some err), { s with world := w })
      | (.returned (args, none), w) =>
        let s := { s with world := w, invoked := s.invoked ++ [Invocation.Run i args] }
        match cmd.Run args s.world with
        | (.returned err, w) => (.returned err, { s with world := w })
        | (.exited code, w) => (.exited code, { s with world := w })
        | (.panicked msg, w) => (.panicked msg, { s with world := w })
      | (.exited code, w) => (.exited code, { s with world := w })
      | (.panicked msg, w) => (.panicked msg, { s with world := w })
    else root.Parse.loop name rest cmds (i + 1) s

/-- The method `root.Parse` (root.go, lines 34-65).  `flags` is what the global flag set
answers for `os.Args[1:]`, `envDebug` the value of `C14_DEBUG`, `world` the
state the commands act on. -/
def root.Parse {σ : Type} (commands : List (Command σ)) (flags : GlobalFlags)
    (envDebug : String) (world : σ) : Outcome (Option GoError) × RootState σ :=
  let s : RootState σ := { world := world, invoked := [], Debug := false }
  match flags.err with
  | some err => (.returned (some err), s)
  | none =>
    let s := { s with Debug := flags.flDebug || envDebug == "1" }
    match flags.Args with
    | [] => root.printUsage [] commands 0 s
    | name :: rest => root.Parse.loop name rest commands 0 s

/-- The method `root.Commands` (root.go, lines 78-84). -/
def root.Commands {σ : Type} (commands : List (Command σ)) : List String :=
  commands.map (fun cmd => cmd.GetName)

/-! ## Concrete inputs -/

/-- One registered key. -/
def keyA : OnlineGetSSHKey := { UUIDRef := "key-a" }

/-- A second registered key. -/
def keyB : OnlineGetSSHKey := { UUIDRef := "key-b" }

/-- Flags of `c14 create --name Foo`, as `CheckFlags` leaves them. -/
def flagsFoo : createFlags := { Create with flName := "Foo", flDesc := " " }

/-- Flags of `c14 create --name MyBooks --description "hardware books"`. -/
def flagsMyBooks : createFlags :=
  { Create with flName := "MyBooks", flDesc := "hardware books" }

/-- The request expected for `flagsFoo` on an account whose first key is
`keyA`. -/
def requestFoo : ConfigCreateSSHBucketFromScratch :=
  { SafeName := "Foo_safe"
    ArchiveName := "Foo"
    Desc := " "
    UUIDSSHKeys := ["key-a"]
    Platforms := ["1"]
    Days := 7
    Quiet := false
    Parity := "standard"
    LargeBucket := false
    Crypto := "aes-256-cbc" }

/-- Collaborators of an account with two keys whose creation call succeeds with
archive identifier "abc-123". -/
def envOk : Collaborators :=
  { GetRandomName := fun _ => "focused_turing"
    InitAPI := none
    GetSSHKeys := ([keyA, keyB], none)
    CreateSSHBucketFromScratch := fun _ =>
      { first := "safe-1", uuidArchive := "abc-123", third := "bucket", err := none } }

/-- Collaborators of an account without any key. -/
def envNoKeys : Collaborators :=
  { envOk with GetSSHKeys := ([], none) }

/-- Collaborators whose key listing fails. -/
def envKeysFail : Collaborators :=
  { envOk with GetSSHKeys := ([], some (.New "401 Unauthorized")) }

/-- Collaborators whose creation call fails. -/
def envCreateFails : Collaborators :=
  { envOk with
    CreateSSHBucketFromScratch := fun _ =>
      { first := "", uuidArchive := "", third := "", err := some (.New "500") } }

/-- A command named "help" acting on a world that logs what the commands do. -/
def helpCommand : Command (List String) :=
  { GetName := "help"
    Parse := fun args w => (.returned (args, none), w ++ ["help.Parse"])
    Run := fun _ w => (.returned none, w ++ ["help.Run"]) }

/-- A command named "create" whose `Parse` consumes the flags and succeeds. -/
def createCommand : Command (List String) :=
  { GetName := "create"
    Parse := fun _ w => (.returned ([], none), w ++ ["create.Parse"])
    Run := fun _ w => (.returned none, w ++ ["create.Run"]) }

/-- A command named "create" whose `Parse` rejects its arguments with an
error, as a flag set does for a flag that is not defined. -/
def rejectingCommand : Command (List String) :=
  { GetName := "create"
    Parse := fun args w =>
      (.returned (args, some (.New "flag provided but not defined: -x")),
       w ++ ["create.Parse"])
    Run := fun _ w => (.returned none, w ++ ["create.Run"]) }

/-- The global flag set after parsing `c14 create --name X`. -/
def flagsCreateX : GlobalFlags :=
  { err := none, flDebug := false, Args := ["create", "--name", "X"] }

/-- The global flag set after parsing `c14 create -x`. -/
def flagsCreateBad : GlobalFlags :=
  { err := none, flDebug := false, Args := ["create", "-x"] }

/-- The global flag set after parsing `c14 remove foo`. -/
def flagsRemove : GlobalFlags :=
  { err := none, flDebug := false, Args := ["remove", "foo"] }

/-! ## Lemmas about `create.Run` -/

/-- The request `create.Run` builds from the flags and the first key. -/
def requestFor (c : createFlags) (key : OnlineGetSSHKey) :
    ConfigCreateSSHBucketFromScratch :=
  { SafeName := if c.flSafe = "" then c.flName ++ "_safe" else c.flSafe
    ArchiveName := c.flName
    Desc := c.flDesc
    UUIDSSHKeys := [key.UUIDRef]
    Platforms := ["1"]
    Days := 7
    Quiet := c.flQuiet
    Parity := c.flParity
    LargeBucket := c.flLarge
    Crypto := if c.flCrypto = false then "none" else "aes-256-cbc" }

/-- When `InitAPI` fails, `create.Run` returns its error unchanged and makes no
further call. -/
theorem create_Run_init_failed (env : Collaborators) (c : createFlags)
    (args : List String) (p : Process) (e : GoError) (hInit : env.InitAPI = some e) :
    create.Run env c args p = (some e, p.call .InitAPI) := by
  simp [create.Run, hInit]

/-- When `GetSSHKeys` fails, `create.Run` returns the annotated error after the
two calls `InitAPI` and `GetSSHKeys`. -/
theorem create_Run_listing_failed (env : Collaborators) (c : createFlags)
    (args : List String) (p : Process) (keys : List OnlineGetSSHKey) (e : GoError)
    (hInit : env.InitAPI = none) (hKeys : env.GetSSHKeys = (keys, some e)) :
    create.Run env c args p
      = (some (.Annotate e "Run:GetSSHKey"), (p.call .InitAPI).call .GetSSHKeys) := by
  simp [create.Run, hInit, hKeys]

/-- When `GetSSHKeys` succeeds without any key, `create.Run` stops after the two
calls `InitAPI` and `GetSSHKeys`. -/
theorem create_Run_empty_listing (env : Collaborators) (c : createFlags)
    (args : List String) (p : Process)
    (hInit : env.InitAPI = none) (hKeys : env.GetSSHKeys = ([], none)) :
    create.Run env c args p
      = (some (.New
          "Please add an SSH Key here: https://console.online.net/en/account/ssh-keys"),
         (p.call .InitAPI).call .GetSSHKeys) := by
  simp [create.Run, hInit, hKeys]

/-- When the creation request fails, `create.Run` returns the annotated error
and prints nothing. -/
theorem create_Run_creation_failed (env : Collaborators) (c : createFlags)
    (args : List String) (p : Process) (key : OnlineGetSSHKey)
    (keys : List OnlineGetSSHKey) (e : GoError)
    (hInit : env.InitAPI = none) (hKeys : env.GetSSHKeys = (key :: keys, none))
    (hErr : (env.CreateSSHBucketFromScratch (requestFor c key)).err = some e) :
    create.Run env c args p
      = (some (.Annotate e "Run:CreateSSHBucketFromScratch"),
         ((p.call .InitAPI).call .GetSSHKeys).call
           (.CreateSSHBucketFromScratch (requestFor c key))) := by
  simp [requestFor] at hErr
  simp [create.Run, hInit, hKeys, requestFor, hErr]

/-- When the creation request succeeds, `create.Run` returns `nil` and prints
the archive identifier and a newline. -/
theorem create_Run_created (env : Collaborators) (c : createFlags)
    (args : List String) (p : Process) (key : OnlineGetSSHKey)
    (keys : List OnlineGetSSHKey)
    (hInit : env.InitAPI = none) (hKeys : env.GetSSHKeys = (key :: keys, none))
    (hErr : (env.CreateSSHBucketFromScratch (requestFor c key)).err = none) :
    create.Run env c args p
      = (none,
         (((p.call .InitAPI).call .GetSSHKeys).call
           (.CreateSSHBucketFromScratch (requestFor c key))).print
           ((env.CreateSSHBucketFromScratch (requestFor c key)).uuidArchive ++ "\n")) := by
  simp [requestFor] at hErr
  simp [create.Run, hInit, hKeys, requestFor, hErr]

/-- With a key available the calls are `InitAPI`, `GetSSHKeys` and one creation
request, whether or not the creation succeeds. -/
theorem create_Run_calls_with_key (env : Collaborators) (c : createFlags)
    (args : List String) (key : OnlineGetSSHKey) (keys : List OnlineGetSSHKey)
    (hInit : env.InitAPI = none) (hKeys : env.GetSSHKeys = (key :: keys, none)) :
    (create.Run env c args Process.start).2.calls
      = [.InitAPI, .GetSSHKeys, .CreateSSHBucketFromScratch (requestFor c key)] := by
  cases hErr : (env.CreateSSHBucketFromScratch (requestFor c key)).err with
  | some e =>
    rw [create_Run_creation_failed env c args _ key keys e hInit hKeys hErr]
    rfl
  | none =>
    rw [create_Run_created env c args _ key keys hInit hKeys hErr]
    rfl

/-- The calls of one `create.Run`, whatever the collaborators answer: a prefix
of `InitAPI`, `GetSSHKeys`, one creation request. -/
theorem create_Run_calls (env : Collaborators) (c : createFlags)
    (args : List String) :
    (create.Run env c args Process.start).2.calls = [.InitAPI]
    ∨ (create.Run env c args Process.start).2.calls = [.InitAPI, .GetSSHKeys]
    ∨ ∃ key keys, env.InitAPI = none ∧ env.GetSSHKeys = (key :: keys, none) ∧
        (create.Run env c args Process.start).2.calls
          = [.InitAPI, .GetSSHKeys, .CreateSSHBucketFromScratch (requestFor c key)] := by
  cases hInit : env.InitAPI with
  | some e =>
    left
    rw [create_Run_init_failed env c args _ e hInit]
    rfl
  | none =>
    right
    rcases hKeys : env.GetSSHKeys with ⟨keys, kerr⟩
    cases kerr with
    | some e =>
      left
      rw [create_Run_listing_failed env c args _ keys e hInit hKeys]
      rfl
    | none =>
      cases keys with
      | nil =>
        left
        rw [create_Run_empty_listing env c args _ hInit hKeys]
        rfl
      | cons key keys =>
        right
        refine ⟨key, keys, rfl, rfl, ?_⟩
        cases hErr : (env.CreateSSHBucketFromScratch (requestFor c key)).err with
        | some e =>
          rw [create_Run_creation_failed env c args _ key keys e hInit hKeys hErr]
          rfl
        | none =>
          rw [create_Run_created env c args _ key keys hInit hKeys hErr]
          rfl

/-- A creation request found in the log of one `create.Run` is the request
built from the flags and the first listed key. -/
theorem create_Run_request (env : Collaborators) (c : createFlags)
    (args : List String) (cfg : ConfigCreateSSHBucketFromScratch)
    (h : Call.CreateSSHBucketFromScratch cfg
          ∈ (create.Run env c args Process.start).2.calls) :
    ∃ key keys, env.InitAPI = none ∧ env.GetSSHKeys = (key :: keys, none) ∧
      cfg = requestFor c key := by
  rcases create_Run_calls env c args with h1 | h1 | ⟨key, keys, hInit, hKeys, h1⟩
  · rw [h1] at h
    simp at h
  · rw [h1] at h
    simp at h
  · rw [h1] at h
    simp at h
    exact ⟨key, keys, hInit, hKeys, h⟩


/-! ## The `create` command -/

/-- Claim C1.  When `InitAPI` succeeds and `GetSSHKeys` succeeds with an empty
key list, `create.Run` returns the non-nil error that tells the user to add an
SSH key, issues no creation request (the only calls are `InitAPI` and
`GetSSHKeys`), and prints nothing. -/
theorem create_Run_without_keys (env : Collaborators) (c : createFlags)
    (args : List String)
    (hInit : env.InitAPI = none) (hKeys : env.GetSSHKeys = ([], none)) :
    (create.Run env c args Process.start).1
        = some (GoError.New
            "Please add an SSH Key here: https://console.online.net/en/account/ssh-keys")
    ∧ (create.Run env c args Process.start).2.calls = [Call.InitAPI, Call.GetSSHKeys]
    ∧ creationCalls (create.Run env c args Process.start).2.calls = 0
    ∧ (create.Run env c args Process.start).2.stdout = "" := by
  rw [create_Run_empty_listing env c args _ hInit hKeys]
  refine ⟨rfl, rfl, rfl, rfl⟩

/-- Claim C1 on an account without keys. -/
theorem create_Run_without_keys_witness :
    (create.Run envNoKeys flagsFoo [] Process.start).1
        = some (GoError.New
            "Please add an SSH Key here: https://console.online.net/en/account/ssh-keys")
    ∧ (create.Run envNoKeys flagsFoo [] Process.start).2.calls
        = [Call.InitAPI, Call.GetSSHKeys]
    ∧ creationCalls (create.Run envNoKeys flagsFoo [] Process.start).2.calls = 0
    ∧ (create.Run envNoKeys flagsFoo [] Process.start).2.stdout = "" :=
  create_Run_without_keys envNoKeys flagsFoo [] rfl rfl

/-- Claim C2.  Every creation request issued by `create.Run` carries the flag
`flName` as `ArchiveName`, and as `SafeName` the string `flName ++ "_safe"`
when `flSafe` is empty and `flSafe` itself otherwise. -/
theorem create_Run_SafeName (env : Collaborators) (c : createFlags)
    (args : List String) (cfg : ConfigCreateSSHBucketFromScratch)
    (h : Call.CreateSSHBucketFromScratch cfg
          ∈ (create.Run env c args Process.start).2.calls) :
    cfg.ArchiveName = c.flName
    ∧ cfg.SafeName = (if c.flSafe = "" then c.flName ++ "_safe" else c.flSafe) := by
  obtain ⟨key, keys, _, _, hcfg⟩ := create_Run_request env c args cfg h
  subst hcfg
  exact ⟨rfl, rfl⟩

/-- Claim C3.  Every creation request issued by `create.Run` carries as
`Crypto` the string "aes-256-cbc" when `flCrypto` is true and "none" when it
is false, and never anything else; the default of the flag is true. -/
theorem create_Run_Crypto (env : Collaborators) (c : createFlags)
    (args : List String) (cfg : ConfigCreateSSHBucketFromScratch)
    (h : Call.CreateSSHBucketFromScratch cfg
          ∈ (create.Run env c args Process.start).2.calls) :
    cfg.Crypto = (if c.flCrypto = true then "aes-256-cbc" else "none")
    ∧ (cfg.Crypto = "aes-256-cbc" ∨ cfg.Crypto = "none")
    ∧ Create.flCrypto = true := by
  obtain ⟨key, keys, _, _, hcfg⟩ := create_Run_request env c args cfg h
  subst hcfg
  cases hc : c.flCrypto <;> simp [requestFor, hc, Create]

/-- Claim C6.  Called without positional arguments, `create.CheckFlags` returns
`nil` and leaves a description that is never empty: the single space when
`flDesc` was empty, the given description otherwise. -/
theorem create_CheckFlags_Desc (env : Collaborators) (c : createFlags) (p : Process) :
    (create.CheckFlags env c [] p).1 = Outcome.returned none
    ∧ (create.CheckFlags env c [] p).2.1.flDesc ≠ ""
    ∧ (create.CheckFlags env c [] p).2.1.flDesc
        = (if c.flDesc = "" then " " else c.flDesc) := by
  by_cases hn : c.flName = "" <;> by_cases hd : c.flDesc = "" <;>
    simp [create.CheckFlags, hn, hd]

/-- Claim C2 on `c14 create --name Foo`: the safe is "Foo_safe". -/
theorem create_Run_SafeName_witness :
    requestFoo.ArchiveName = "Foo" ∧ requestFoo.SafeName = "Foo_safe" :=
  create_Run_SafeName envOk flagsFoo [] requestFoo (by decide)

/-- Claim C3 on `c14 create --name Foo`, with the default crypto flag. -/
theorem create_Run_Crypto_witness :
    requestFoo.Crypto = "aes-256-cbc"
    ∧ (requestFoo.Crypto = "aes-256-cbc" ∨ requestFoo.Crypto = "none")
    ∧ Create.flCrypto = true :=
  create_Run_Crypto envOk flagsFoo [] requestFoo (by decide)

/-- Claim C8.  When `GetSSHKeys` returns a non-empty key list, `create.Run`
issues exactly one creation request, after `InitAPI` and `GetSSHKeys`; its
`ArchiveName` and `Desc` are the flags `flName` and `flDesc`, `UUIDSSHKeys` is
the one-element list with the reference of the first key, `Platforms` is
`["1"]`, `Days` is 7, and `Quiet`, `Parity` and `LargeBucket` are the flag
values. -/
theorem create_Run_request_fields (env : Collaborators) (c : createFlags)
    (args : List String) (key : OnlineGetSSHKey) (keys : List OnlineGetSSHKey)
    (hInit : env.InitAPI = none) (hKeys : env.GetSSHKeys = (key :: keys, none)) :
    (create.Run env c args Process.start).2.calls
        = [Call.InitAPI, Call.GetSSHKeys,
           Call.CreateSSHBucketFromScratch
             { SafeName := if c.flSafe = "" then c.flName ++ "_safe" else c.flSafe
               ArchiveName := c.flName
               Desc := c.flDesc
               UUIDSSHKeys := [key.UUIDRef]
               Platforms := ["1"]
               Days := 7
               Quiet := c.flQuiet
               Parity := c.flParity
               LargeBucket := c.flLarge
               Crypto := if c.flCrypto = true then "aes-256-cbc" else "none" }]
    ∧ creationCalls (create.Run env c args Process.start).2.calls = 1 := by
  have hreq : requestFor c key
      = { SafeName := if c.flSafe = "" then c.flName ++ "_safe" else c.flSafe
          ArchiveName := c.flName
          Desc := c.flDesc
          UUIDSSHKeys := [key.UUIDRef]
          Platforms := ["1"]
          Days := 7
          Quiet := c.flQuiet
          Parity := c.flParity
          LargeBucket := c.flLarge
          Crypto := if c.flCrypto = true then "aes-256-cbc" else "none" } := by
    cases hc : c.flCrypto <;> simp [requestFor, hc]
  rw [← hreq, create_Run_calls_with_key env c args key keys hInit hKeys]
  exact ⟨rfl, rfl⟩

/-- Claim C8 on an account with the two keys `keyA` and `keyB`: only `keyA` is
sent. -/
theorem create_Run_request_fields_witness :
    (create.Run envOk flagsFoo [] Process.start).2.calls
        = [Call.InitAPI, Call.GetSSHKeys,
           Call.CreateSSHBucketFromScratch
             { SafeName := if flagsFoo.flSafe = "" then flagsFoo.flName ++ "_safe"
                           else flagsFoo.flSafe
               ArchiveName := flagsFoo.flName
               Desc := flagsFoo.flDesc
               UUIDSSHKeys := [keyA.UUIDRef]
               Platforms := ["1"]
               Days := 7
               Quiet := flagsFoo.flQuiet
               Parity := flagsFoo.flParity
               LargeBucket := flagsFoo.flLarge
               Crypto := if flagsFoo.flCrypto = true then "aes-256-cbc" else "none" }]
    ∧ creationCalls (create.Run envOk flagsFoo [] Process.start).2.calls = 1 :=
  create_Run_request_fields envOk flagsFoo [] keyA [keyB] rfl rfl

/-- Claim C9.  When a key is available and the creation request that
`create.Run` issues succeeds with archive identifier `id`, `create.Run` returns
`nil` and its standard output is exactly `id` followed by one newline, whatever
the other results of the creation call are. -/
theorem create_Run_prints_id (env : Collaborators) (c : createFlags)
    (args : List String) (key : OnlineGetSSHKey) (keys : List OnlineGetSSHKey)
    (id : String)
    (hInit : env.InitAPI = none) (hKeys : env.GetSSHKeys = (key :: keys, none))
    (hOk : ∀ cfg, Call.CreateSSHBucketFromScratch cfg
              ∈ (create.Run env c args Process.start).2.calls →
            (env.CreateSSHBucketFromScratch cfg).err = none
            ∧ (env.CreateSSHBucketFromScratch cfg).uuidArchive = id) :
    (create.Run env c args Process.start).1 = none
    ∧ (create.Run env c args Process.start).2.stdout = id ++ "\n" := by
  have hmem : Call.CreateSSHBucketFromScratch (requestFor c key)
      ∈ (create.Run env c args Process.start).2.calls := by
    rw [create_Run_calls_with_key env c args key keys hInit hKeys]
    simp
  obtain ⟨hErr, hId⟩ := hOk _ hmem
  rw [create_Run_created env c args _ key keys hInit hKeys hErr, hId]
  simp [Process.call, Process.start, Process.print]

/-- Claim C9 on `c14 create --name MyBooks --description "hardware books"` with
a creation call that returns "abc-123". -/
theorem create_Run_prints_id_witness :
    (create.Run envOk flagsMyBooks [] Process.start).1 = none
    ∧ (create.Run envOk flagsMyBooks [] Process.start).2.stdout = "abc-123" ++ "\n" :=
  create_Run_prints_id envOk flagsMyBooks [] keyA [keyB] "abc-123" rfl rfl
    (fun _ _ => ⟨rfl, rfl⟩)


/-- Claim C10.  When `GetSSHKeys` returns the error `e`, `create.Run` returns
`e` annotated with "Run:GetSSHKey" and issues no creation request; when the
creation request it issues returns the error `e`, `create.Run` returns `e`
annotated with "Run:CreateSSHBucketFromScratch".  In both cases nothing is
printed. -/
theorem create_Run_remote_failure (env : Collaborators) (c : createFlags)
    (args : List String) (e : GoError) (hInit : env.InitAPI = none)
    (hFail : env.GetSSHKeys.2 = some e
      ∨ (env.GetSSHKeys.2 = none
          ∧ ∃ cfg, Call.CreateSSHBucketFromScratch cfg
                ∈ (create.Run env c args Process.start).2.calls
              ∧ (env.CreateSSHBucketFromScratch cfg).err = some e)) :
    (create.Run env c args Process.start).1
        = some (GoError.Annotate e
            (if env.GetSSHKeys.2.isSome then "Run:GetSSHKey"
             else "Run:CreateSSHBucketFromScratch"))
    ∧ (GoError.Annotate e
            (if env.GetSSHKeys.2.isSome then "Run:GetSSHKey"
             else "Run:CreateSSHBucketFromScratch")).Cause = e.Cause
    ∧ (create.Run env c args Process.start).2.stdout = ""
    ∧ creationCalls (create.Run env c args Process.start).2.calls
        = (if env.GetSSHKeys.2.isSome then 0 else 1) := by
  rcases hFail with hList | ⟨hList, cfg, hmem, hErr⟩
  · rcases hKeys : env.GetSSHKeys with ⟨keys, kerr⟩
    rw [hKeys] at hList
    simp only at hList
    subst hList
    rw [create_Run_listing_failed env c args _ keys e hInit hKeys]
    simp [Process.call, Process.start, creationCalls, GoError.Cause]
  · obtain ⟨key, keys, _, hKeys, hcfg⟩ := create_Run_request env c args cfg hmem
    subst hcfg
    rw [create_Run_creation_failed env c args _ key keys e hInit hKeys hErr, hKeys]
    simp [Process.call, Process.start, creationCalls, GoError.Cause]

/-- Claim C10 on a failing key listing and on a failing creation call. -/
theorem create_Run_remote_failure_witness :
    ((create.Run envKeysFail flagsFoo [] Process.start).1
        = some (GoError.Annotate (GoError.New "401 Unauthorized")
            (if envKeysFail.GetSSHKeys.2.isSome then "Run:GetSSHKey"
             else "Run:CreateSSHBucketFromScratch"))
      ∧ (GoError.Annotate (GoError.New "401 Unauthorized")
            (if envKeysFail.GetSSHKeys.2.isSome then "Run:GetSSHKey"
             else "Run:CreateSSHBucketFromScratch")).Cause
          = (GoError.New "401 Unauthorized").Cause
      ∧ (create.Run envKeysFail flagsFoo [] Process.start).2.stdout = ""
      ∧ creationCalls (create.Run envKeysFail flagsFoo [] Process.start).2.calls
          = (if envKeysFail.GetSSHKeys.2.isSome then 0 else 1))
    ∧ ((create.Run envCreateFails flagsFoo [] Process.start).1
        = some (GoError.Annotate (GoError.New "500")
            (if envCreateFails.GetSSHKeys.2.isSome then "Run:GetSSHKey"
             else "Run:CreateSSHBucketFromScratch"))
      ∧ (GoError.Annotate (GoError.New "500")
            (if envCreateFails.GetSSHKeys.2.isSome then "Run:GetSSHKey"
             else "Run:CreateSSHBucketFromScratch")).Cause
          = (GoError.New "500").Cause
      ∧ (create.Run envCreateFails flagsFoo [] Process.start).2.stdout = ""
      ∧ creationCalls (create.Run envCreateFails flagsFoo [] Process.start).2.calls
          = (if envCreateFails.GetSSHKeys.2.isSome then 0 else 1)) :=
  ⟨create_Run_remote_failure envKeysFail flagsFoo [] (GoError.New "401 Unauthorized") rfl
      (Or.inl rfl),
   create_Run_remote_failure envCreateFails flagsFoo [] (GoError.New "500") rfl
      (Or.inr ⟨rfl, requestFoo, by decide, rfl⟩)⟩


/-! ## The dispatcher -/

/-- The loop skips the entries before the first one with the requested name:
it behaves as the loop over that entry alone, at its index. -/
theorem root_Parse_loop_at {σ : Type} (name : String) (rest : List String)
    (cmd : Command σ) (hName : cmd.GetName = name) :
    ∀ (cmds : List (Command σ)) (i k : Nat) (s : RootState σ),
      cmds[i]? = some cmd →
      (∀ j c, j < i → cmds[j]? = some c → c.GetName ≠ name) →
      root.Parse.loop name rest cmds k s = root.Parse.loop name rest [cmd] (k + i) s := by
  intro cmds
  induction cmds with
  | nil => intro i k s hCmd; simp at hCmd
  | cons c cs ih =>
    intro i k s hCmd hFirst
    cases i with
    | zero =>
      simp at hCmd
      subst hCmd
      simp [root.Parse.loop, hName]
    | succ i =>
      have hc : c.GetName ≠ name := hFirst 0 c (Nat.succ_pos i) (by simp)
      have hrest : ∀ j d, j < i → cs[j]? = some d → d.GetName ≠ name := by
        intro j d hj hd
        exact hFirst (j + 1) d (Nat.succ_lt_succ hj) (by simpa using hd)
      have hCmd1 : cs[i]? = some cmd := by simpa using hCmd
      rw [root.Parse.loop]
      simp only [hc, if_false]
      rw [ih i (k + 1) s hCmd1 hrest]
      congr 1
      omega

/-- The loop over a registry without the requested name invokes nothing and
ends with the unknown-command error. -/
theorem root_Parse_loop_unknown {σ : Type} (name : String) (rest : List String) :
    ∀ (cmds : List (Command σ)) (k : Nat) (s : RootState σ),
      (∀ c ∈ cmds, c.GetName ≠ name) →
      root.Parse.loop name rest cmds k s = (.returned (some (unknownCommand name)), s) := by
  intro cmds
  induction cmds with
  | nil => intro k s _; rfl
  | cons c cs ih =>
    intro k s hNone
    have hc : c.GetName ≠ name := hNone c (by simp)
    rw [root.Parse.loop]
    simp only [hc, if_false]
    exact ih (k + 1) s (fun d hd => hNone d (by simp [hd]))


/-- Claim C4, as the code has it.  When the first argument is the name of a
registered command, `root.Parse` calls `Parse` of the first registry entry with
that name, once, with the arguments after the name.  When that `Parse` returns
without error, it then calls `Run` of the same entry, once, with the argument
list `Parse` returned, and ends as `Run` ends; when `Parse` returns an error
(or ends the process), `Run` is not called and `root.Parse` returns that error
(or ends the same way).  No method of another entry is called. -/
theorem root_Parse_dispatch {σ : Type} (commands : List (Command σ))
    (flags : GlobalFlags) (envDebug : String) (world : σ)
    (name : String) (rest : List String) (i : Nat) (cmd : Command σ)
    (hErr : flags.err = none) (hArgs : flags.Args = name :: rest)
    (hCmd : commands[i]? = some cmd) (hName : cmd.GetName = name)
    (hFirst : ∀ j c, j < i → commands[j]? = some c → c.GetName ≠ name) :
    (root.Parse commands flags envDebug world).2.invoked
        = (match (cmd.Parse rest world).1 with
           | .returned (args, none) => [Invocation.Parse i rest, Invocation.Run i args]
           | _ => [Invocation.Parse i rest])
    ∧ (root.Parse commands flags envDebug world).1
        = (match cmd.Parse rest world with
           | (.returned (args, none), w) => (cmd.Run args w).1
           | (.returned (_, some err), _) => .returned (some err)
           | (.exited code, _) => .exited code
           | (.panicked msg, _) => .panicked msg)
    ∧ (root.Parse commands flags envDebug world).2.world
        = (match cmd.Parse rest world with
           | (.returned (args, none), w) => (cmd.Run args w).2
           | (_, w) => w) := by
  unfold root.Parse
  simp only [hErr, hArgs]
  rw [root_Parse_loop_at name rest cmd hName commands i 0 _ hCmd hFirst]
  simp only [root.Parse.loop, hName, if_true]
  rcases hP : cmd.Parse rest world with ⟨o, w⟩
  cases o with
  | returned r =>
    obtain ⟨args, perr⟩ := r
    cases perr with
    | some e => simp
    | none =>
      simp only
      rcases hR : cmd.Run args w with ⟨o2, w2⟩
      cases o2 <;> simp
  | exited code => simp
  | panicked msg => simp

/-- Claim C4 on the registry `[help, create]` and `c14 create --name X`: only
the entry at index 1 is invoked. -/
theorem root_Parse_dispatch_witness :
    (root.Parse [helpCommand, createCommand] flagsCreateX "" []).2.invoked
        = [Invocation.Parse 1 ["--name", "X"], Invocation.Run 1 []]
    ∧ (root.Parse [helpCommand, createCommand] flagsCreateX "" []).1
        = Outcome.returned none
    ∧ (root.Parse [helpCommand, createCommand] flagsCreateX "" []).2.world
        = ["create.Parse", "create.Run"] :=
  root_Parse_dispatch [helpCommand, createCommand] flagsCreateX "" []
    "create" ["--name", "X"] 1 createCommand rfl rfl rfl rfl
    (by
      intro j c hj hc
      obtain rfl : j = 0 := by omega
      obtain rfl : helpCommand = c := by simpa using hc
      decide)

/-- Claim C4 as stated fails: for `c14 create -x` with a `create` command whose
`Parse` returns an error, `root.Parse` calls `Parse` of that command and
returns its error, and `Run` of the command is called zero times, not once. -/
theorem root_Parse_dispatch_counterexample :
    (root.Parse [helpCommand, rejectingCommand] flagsCreateBad "" []).2.invoked
        = [Invocation.Parse 1 ["-x"]]
    ∧ (¬ ∃ args, Invocation.Run 1 args
          ∈ (root.Parse [helpCommand, rejectingCommand] flagsCreateBad "" []).2.invoked)
    ∧ (root.Parse [helpCommand, rejectingCommand] flagsCreateBad "" []).1
        = Outcome.returned (some (GoError.New "flag provided but not defined: -x"))
    ∧ (root.Parse [helpCommand, rejectingCommand] flagsCreateBad "" []).2.world
        = ["create.Parse"] := by
  have h : (root.Parse [helpCommand, rejectingCommand] flagsCreateBad "" []).2.invoked
      = [Invocation.Parse 1 ["-x"]] := by decide
  refine ⟨h, ?_, by decide, by decide⟩
  rw [h]
  simp

/-- Claim C5.  When the first argument is the name of no registered command,
`root.Parse` returns the error with message "c14: unknow command NAME",
a newline and "Run 'c14 help' for usage", where NAME is that argument, and
calls neither `Parse` nor `Run` of any registered command. -/
theorem root_Parse_unknown {σ : Type} (commands : List (Command σ))
    (flags : GlobalFlags) (envDebug : String) (world : σ)
    (name : String) (rest : List String)
    (hErr : flags.err = none) (hArgs : flags.Args = name :: rest)
    (hNone : ∀ c ∈ commands, c.GetName ≠ name) :
    (root.Parse commands flags envDebug world).1
        = Outcome.returned (some (GoError.New
            ("c14: unknow command " ++ name ++ "\nRun \x27c14 help\x27 for usage")))
    ∧ (root.Parse commands flags envDebug world).2.invoked = []
    ∧ (root.Parse commands flags envDebug world).2.world = world := by
  unfold root.Parse
  simp only [hErr, hArgs]
  rw [root_Parse_loop_unknown name rest commands 0 _ hNone]
  exact ⟨rfl, rfl, rfl⟩

/-- Claim C5 on the registry `[help, create]` and `c14 remove foo`. -/
theorem root_Parse_unknown_witness :
    (root.Parse [helpCommand, createCommand] flagsRemove "" []).1
        = Outcome.returned (some (GoError.New
            ("c14: unknow command " ++ "remove" ++ "\nRun \x27c14 help\x27 for usage")))
    ∧ (root.Parse [helpCommand, createCommand] flagsRemove "" []).2.invoked = []
    ∧ (root.Parse [helpCommand, createCommand] flagsRemove "" []).2.world = [] :=
  root_Parse_unknown [helpCommand, createCommand] flagsRemove "" []
    "remove" ["foo"] rfl rfl (by decide)


end C14
